import Mathlib

/-!
Verification of the inference/filtering behaviour of `c.py`, a Flask front-end
over a pretrained ResNet50 classifier.

The pure parts of the program (the class-label table, the top-50 selection,
the threshold filter with sorted early exit, rounding, and the branching of the HTTP facade
) are embedded directly.  The external library pipeline
(PIL decode, preprocessing, the ResNet50 forward pass and softmax) is
abstracted as a parameter `runModel : List Nat → Except String (List ℚ)`
returning either a decode/inference error message or the softmax probability
vector over the 1000 classes; probabilities are modelled as rationals.
-/

/-- `MIN_CONFIDENCE = 0.40` from c.py line 12. -/
def MIN_CONFIDENCE : ℚ := 0.40

/-- `MAX_CONFIDENCE = 1.00` from c.py line 13. -/
def MAX_CONFIDENCE : ℚ := 1.00

/-- The sparse ImageNet label table of c.py lines 17-30, as an association
list from string class index to label. -/
def imagenet_classes : List (String × String) :=
  [("0", "tench"), ("1", "goldfish"), ("2", "great white shark"), ("3", "tiger shark"),
   ("4", "hammerhead"), ("5", "electric ray"), ("6", "stingray"), ("7", "rooster"),
   ("8", "hen"), ("9", "ostrich"), ("10", "brambling"), ("11", "goldfinch"),
   ("99", "goose"), ("151", "Chihuahua"), ("152", "Japanese spaniel"),
   ("153", "Maltese dog"), ("154", "Pekinese"), ("155", "Shih-Tzu"),
   ("156", "Blenheim spaniel"), ("157", "papillon"), ("158", "toy terrier"),
   ("207", "golden retriever"), ("208", "Labrador retriever"),
   ("282", "tiger cat"), ("283", "Persian cat"), ("284", "Siamese cat"),
   ("291", "lion"), ("292", "tiger"), ("293", "cheetah"), ("294", "brown bear"),
   ("404", "airliner"), ("407", "ambulance"), ("429", "baseball"), ("430", "basketball"),
   ("504", "coffee mug"), ("620", "laptop"), ("850", "television"), ("858", "toaster"),
   ("927", "ice cream"), ("948", "strawberry"), ("949", "orange"), ("950", "lemon"),
   ("962", "pizza")]

/-- `imagenet_classes.get(class_id, f"Class {class_id}")` from c.py line 68:
lookup with a placeholder default for absent indices. -/
def lookupClass (class_id : String) : String :=
  (imagenet_classes.lookup class_id).getD ("Class " ++ class_id)

/-- Round a rational to the nearest integer, ties to even (the rounding used
by the built-in `round` of Python). -/
def pyRoundInt (y : ℚ) : ℤ :=
  if y - (Int.floor y : ℚ) < 1/2 then Int.floor y
  else if 1/2 < y - (Int.floor y : ℚ) then Int.floor y + 1
  else if Int.floor y % 2 = 0 then Int.floor y else Int.floor y + 1

/-- The Python call `round(x, 1)`: round to one decimal place, ties to even
(bankers rounding), on an exact rational model of the value. -/
def pyRound1 (x : ℚ) : ℚ :=
  (pyRoundInt (x * 10) : ℚ) / 10

/-- One element of the `predictions` list built in c.py lines 70-73:
a dict with keys `class` and `confidence`. -/
structure Prediction where
  class_name : String
  confidence : ℚ
deriving DecidableEq, Repr

/-- Builds one prediction entry exactly as c.py lines 67-73:
`class_id = str(top_ids[i].item())`, label lookup with placeholder default,
`conf_percent = round(conf * 100, 1)`.  The pair is (probability, class index). -/
def mkPrediction (x : ℚ × ℕ) : Prediction :=
  { class_name := lookupClass (toString x.2)
    confidence := pyRound1 (x.1 * 100) }

/-- Descending-probability order on (probability, index) pairs, the order in
which `torch.topk` returns its entries. -/
def probDesc (a b : ℚ × ℕ) : Prop := b.1 ≤ a.1

instance : DecidableRel probDesc := fun a b => inferInstanceAs (Decidable (b.1 ≤ a.1))

instance : IsTotal (ℚ × ℕ) probDesc := ⟨fun a b => le_total b.1 a.1⟩

instance : IsTrans (ℚ × ℕ) probDesc := ⟨fun _ _ _ h h' => le_trans h' h⟩

/-- The probability vector paired with class indices and sorted by descending
probability: the sorted output of `torch.topk(probs, k)` before truncation. -/
def sortedScores (probs : List ℚ) : List (ℚ × ℕ) :=
  List.insertionSort probDesc (probs.enum.map (fun p => (p.2, p.1)))

/-- `torch.topk(probs, k)` from c.py line 61: the `k` highest-probability
(probability, class index) pairs in descending probability order. -/
def topk (probs : List ℚ) (k : ℕ) : List (ℚ × ℕ) :=
  (sortedScores probs).take k

/-- The filtering loop of c.py lines 63-75: walk the descending top-k list;
emit an entry when `MIN_CONFIDENCE <= conf <= MAX_CONFIDENCE`, break at the
first `conf < MIN_CONFIDENCE`, otherwise (conf above the maximum) skip and
continue. -/
def filterLoop : List (ℚ × ℕ) → List Prediction
  | [] => []
  | x :: rest =>
    if MIN_CONFIDENCE ≤ x.1 ∧ x.1 ≤ MAX_CONFIDENCE then
      mkPrediction x :: filterLoop rest
    else if x.1 < MIN_CONFIDENCE then
      []
    else
      filterLoop rest

/-- The pure core of `predict_image` (c.py lines 61-77), taking the softmax
probability vector: top-50 selection followed by the threshold loop. -/
def predict_image_core (probs : List ℚ) : List Prediction :=
  filterLoop (topk probs 50)

/-- `predict_image` (c.py lines 51-79).  `runModel` abstracts the external
pipeline — PIL decode, preprocessing, the ResNet50 forward pass and softmax —
returning the probability vector or the message of the exception it raises.
A failure is re-raised as `Exception(f"Error: {str(e)}")` (line 79). -/
def predict_image (runModel : List ℕ → Except String (List ℚ))
    (image_bytes : List ℕ) : Except String (List Prediction) :=
  match runModel image_bytes with
  | Except.error e => Except.error ("Error: " ++ e)
  | Except.ok probs => Except.ok (predict_image_core probs)

/-- An uploaded file of the multipart form: `filename` and content bytes. -/
structure UploadedFile where
  filename : String
  content : List ℕ
deriving DecidableEq, Repr

/-- A POST /predict request: the multipart `request.files` mapping, as an
association list from field name to uploaded file (first match wins, as in
`request.files[...]` in Flask). -/
structure PredictRequest where
  files : List (String × UploadedFile)
deriving DecidableEq, Repr

/-- The JSON body shapes produced by the `/predict` route: either
`success=true` with a prediction list or `success=false` with an error. -/
inductive PredictBody where
  | success (predictions : List Prediction)
  | failure (error : String)
deriving DecidableEq, Repr

/-- An HTTP response: status code and JSON body.  The Flask `jsonify` call used
without an explicit status always yields 200. -/
structure HttpResponse where
  status : ℕ
  body : PredictBody
deriving DecidableEq, Repr

/-- The `/predict` route handler (c.py lines 85-100): missing `file` field
and empty filename short-circuit to failure bodies; otherwise the file bytes
go to `predict_image`, whose exception message, if any, becomes the `error`
field.  Every branch answers with status 200. -/
def predict (runModel : List ℕ → Except String (List ℚ))
    (req : PredictRequest) : HttpResponse :=
  match req.files.lookup "file" with
  | none => ⟨200, PredictBody.failure "No file uploaded"⟩
  | some file =>
    if file.filename = "" then ⟨200, PredictBody.failure "No file selected"⟩
    else
      match predict_image runModel file.content with
      | Except.ok preds => ⟨200, PredictBody.success preds⟩
      | Except.error e => ⟨200, PredictBody.failure e⟩

/-- The process-wide server state: the loaded model (abstracted to the
function it computes), held read-only for the process lifetime. -/
structure ServerState where
  runModel : List ℕ → Except String (List ℚ)

/-- `predict_image` as a state-passing computation over the server state:
it reads the shared model and never mutates it. -/
def predict_image_st (s : ServerState) (b : List ℕ) :
    Except String (List Prediction) × ServerState :=
  (predict_image s.runModel b, s)

/-- The emission condition of the loop (c.py line 66):
`MIN_CONFIDENCE <= conf <= MAX_CONFIDENCE`, as a Boolean predicate on
(probability, index) pairs, used to compare the early-exit loop with a plain
filter over the top-50 list. -/
def inBand (x : ℚ × ℕ) : Bool :=
  decide (MIN_CONFIDENCE ≤ x.1 ∧ x.1 ≤ MAX_CONFIDENCE)

/-- A concrete 51-entry probability vector (0.51 down to 0.01) used to
exercise the top-50 selection on an input longer than 50 classes. -/
def demoProbs : List ℚ :=
  [51/100, 50/100, 49/100, 48/100, 47/100, 46/100, 45/100, 44/100, 43/100,
   42/100, 41/100, 40/100, 39/100, 38/100, 37/100, 36/100, 35/100, 34/100,
   33/100, 32/100, 31/100, 30/100, 29/100, 28/100, 27/100, 26/100, 25/100,
   24/100, 23/100, 22/100, 21/100, 20/100, 19/100, 18/100, 17/100, 16/100,
   15/100, 14/100, 13/100, 12/100, 11/100, 10/100, 9/100, 8/100, 7/100,
   6/100, 5/100, 4/100, 3/100, 2/100, 1/100]

/-- A concrete server state whose model pipeline accepts every input and
reports an empty probability vector. -/
def demoState : ServerState :=
  ServerState.mk (fun _ => Except.ok [])

/-- A concrete model pipeline that accepts every input with an empty
probability vector. -/
def rmOk : List ℕ → Except String (List ℚ) :=
  fun _ => Except.ok []

/-- A concrete model pipeline that fails on every input with message
"boom". -/
def rmErr : List ℕ → Except String (List ℚ) :=
  fun _ => Except.error "boom"

/-- A request whose multipart form has no `file` field. -/
def reqNoFile : PredictRequest :=
  PredictRequest.mk []

/-- A request whose uploaded file has an empty filename. -/
def reqEmptyName : PredictRequest :=
  PredictRequest.mk [("file", UploadedFile.mk "" [1])]

/-- A request carrying a nonempty filename and some bytes. -/
def reqImage : PredictRequest :=
  PredictRequest.mk [("file", UploadedFile.mk "cat.png" [1, 2, 3])]

/-- C4: label lookup maps every class index present in the label table to its
exact fixed label — in particular index "282" to "tiger cat" — and every
absent index to the placeholder "Class {index}" — in particular "500" to
"Class 500". -/
theorem lookupClass_spec :
    (∀ k v, imagenet_classes.lookup k = some v → lookupClass k = v)
    ∧ (∀ k, imagenet_classes.lookup k = none → lookupClass k = "Class " ++ k)
    ∧ lookupClass "282" = "tiger cat"
    ∧ lookupClass "500" = "Class 500" := by
  refine ⟨fun k v h => ?_, fun k h => ?_, by decide, by decide⟩
  · simp [lookupClass, h]
  · simp [lookupClass, h]

/-- Witness for C4: the general clauses of `lookupClass_spec` applied at the
concrete present index "282" and absent index "500". -/
theorem lookupClass_spec_witness :
    imagenet_classes.lookup "282" = some "tiger cat"
    ∧ imagenet_classes.lookup "500" = none
    ∧ lookupClass "282" = "tiger cat"
    ∧ lookupClass "500" = "Class 500" :=
  ⟨by decide, by decide,
   lookupClass_spec.1 "282" "tiger cat" (by decide),
   lookupClass_spec.2.1 "500" (by decide)⟩

/-- The sorted score list is pairwise in descending probability order. -/
theorem sortedScores_pairwise (probs : List ℚ) :
    (sortedScores probs).Pairwise probDesc :=
  List.sorted_insertionSort probDesc _

/-- The top-k list inherits the descending order of the sorted score list. -/
theorem topk_pairwise (probs : List ℚ) (k : ℕ) :
    (topk probs k).Pairwise probDesc :=
  (sortedScores_pairwise probs).sublist (List.take_sublist k _)

/-- On a descending-sorted list the early-exit loop coincides with a plain
filter by the confidence band: once one entry falls below the minimum, all
later entries do too, so breaking loses nothing. -/
theorem filterLoop_eq_filter (xs : List (ℚ × ℕ)) (h : xs.Pairwise probDesc) :
    filterLoop xs = (xs.filter inBand).map mkPrediction := by
  induction xs with
  | nil => rfl
  | cons x rest ih =>
    rcases List.pairwise_cons.mp h with ⟨hx, hrest⟩
    by_cases hin : MIN_CONFIDENCE ≤ x.1 ∧ x.1 ≤ MAX_CONFIDENCE
    · simp [filterLoop, hin, inBand, List.filter_cons, ih hrest]
    · by_cases hlow : x.1 < MIN_CONFIDENCE
      · have hnil : rest.filter inBand = [] := by
          refine List.filter_eq_nil_iff.mpr (fun y hy => ?_)
          have hyx : y.1 ≤ x.1 := hx y hy
          simp only [inBand, decide_eq_true_eq, not_and]
          intro hmin
          exact absurd (le_trans hmin hyx) (not_le.mpr hlow)
        simp [filterLoop, hin, hlow, inBand, List.filter_cons, hnil]
      · simp [filterLoop, hin, hlow, inBand, List.filter_cons, ih hrest]

/-- The loop of `predict_image` equals a filter over the top-50 list. -/
theorem predict_image_core_eq_filter (probs : List ℚ) :
    predict_image_core probs = ((topk probs 50).filter inBand).map mkPrediction :=
  filterLoop_eq_filter _ (topk_pairwise probs 50)

/-- `pyRoundInt` returns the floor or the floor plus one; the latter only
when the fractional part is at least one half. -/
theorem pyRoundInt_cases (y : ℚ) :
    pyRoundInt y = Int.floor y
    ∨ (pyRoundInt y = Int.floor y + 1 ∧ 1/2 ≤ y - (Int.floor y : ℚ)) := by
  unfold pyRoundInt
  split_ifs with h1 h2 h3
  · exact Or.inl rfl
  · exact Or.inr ⟨rfl, le_of_lt h2⟩
  · exact Or.inl rfl
  · exact Or.inr ⟨rfl, le_of_not_lt h1⟩

/-- Rounding never goes below the floor. -/
theorem floor_le_pyRoundInt (y : ℚ) : Int.floor y ≤ pyRoundInt y := by
  rcases pyRoundInt_cases y with h | ⟨h, _⟩ <;> omega

/-- Rounding a value that is at least 40 to one decimal stays at least 40. -/
theorem pyRound1_ge_forty {x : ℚ} (h : 40 ≤ x) : 40 ≤ pyRound1 x := by
  unfold pyRound1
  have h4 : (400 : ℤ) ≤ Int.floor (x * 10) := by
    rw [Int.le_floor]
    push_cast
    linarith
  have h5 : (400 : ℤ) ≤ pyRoundInt (x * 10) := le_trans h4 (floor_le_pyRoundInt _)
  have h6 : (400 : ℚ) ≤ (pyRoundInt (x * 10) : ℚ) := by exact_mod_cast h5
  rw [le_div_iff₀ (by norm_num : (0:ℚ) < 10)]
  linarith

/-- Rounding a value that is at most 100 to one decimal stays at most 100. -/
theorem pyRound1_le_hundred {x : ℚ} (h : x ≤ 100) : pyRound1 x ≤ 100 := by
  unfold pyRound1
  have hr : pyRoundInt (x * 10) ≤ 1000 := by
    rcases pyRoundInt_cases (x * 10) with hc | ⟨hc, hfrac⟩
    · have h1 : (Int.floor (x * 10) : ℚ) ≤ 1000 := le_trans (Int.floor_le _) (by linarith)
      have h2 : Int.floor (x * 10) ≤ 1000 := by exact_mod_cast h1
      omega
    · have h1 : (Int.floor (x * 10) : ℚ) < 1000 := by linarith
      have h2 : Int.floor (x * 10) < 1000 := by exact_mod_cast h1
      omega
  have h6 : (pyRoundInt (x * 10) : ℚ) ≤ 1000 := by exact_mod_cast hr
  rw [div_le_iff₀ (by norm_num : (0:ℚ) < 10)]
  linarith

/-- The result of `pyRound1` is an integer number of tenths. -/
theorem pyRound1_tenths (x : ℚ) : ∃ n : ℤ, pyRound1 x = (n : ℚ) / 10 :=
  ⟨pyRoundInt (x * 10), rfl⟩

/-- The two threshold constants in rational normal form. -/
theorem confidence_constants : MIN_CONFIDENCE = 2/5 ∧ MAX_CONFIDENCE = 1 := by
  constructor <;> norm_num [MIN_CONFIDENCE, MAX_CONFIDENCE]

/-- C1: for every probability vector, `predict_image` emits exactly the
top-50 entries whose probability lies in [0.40, 1.00], in descending
probability order: the result equals a filter of the descending-sorted
top-50 list (sorted early exit loses nothing), the top-50 list is pairwise
descending, and it together with the discarded tail is a permutation of the
full class scores, every kept entry dominating every discarded one. -/
theorem predict_image_top50 (probs : List ℚ) :
    predict_image_core probs = ((topk probs 50).filter inBand).map mkPrediction
    ∧ (topk probs 50).Pairwise probDesc
    ∧ List.Perm (topk probs 50 ++ (sortedScores probs).drop 50)
        (probs.enum.map (fun p => (p.2, p.1)))
    ∧ ∀ x ∈ topk probs 50, ∀ y ∈ (sortedScores probs).drop 50, y.1 ≤ x.1 := by
  refine ⟨predict_image_core_eq_filter probs, topk_pairwise probs 50, ?_, ?_⟩
  · rw [topk, List.take_append_drop]
    exact List.perm_insertionSort probDesc _
  · have h : ((sortedScores probs).take 50 ++ (sortedScores probs).drop 50).Pairwise probDesc := by
      rw [List.take_append_drop]
      exact sortedScores_pairwise probs
    exact fun x hx y hy => (List.pairwise_append.mp h).2.2 x hx y hy

/-- Witness for C1: on the 51-entry vector `demoProbs`, the pair for class 0
is kept in the top 50, the pair for class 50 is the discarded tail, and the
dominance clause of `predict_image_top50` applies to them. -/
theorem predict_image_top50_witness :
    ((51:ℚ)/100, 0) ∈ topk demoProbs 50
    ∧ ((1:ℚ)/100, 50) ∈ (sortedScores demoProbs).drop 50
    ∧ ((1:ℚ)/100, 50).1 ≤ ((51:ℚ)/100, 0).1 :=
  ⟨by with_unfolding_all decide, by with_unfolding_all decide,
   (predict_image_top50 demoProbs).2.2.2 ((51:ℚ)/100, 0) (by with_unfolding_all decide)
     ((1:ℚ)/100, 50) (by with_unfolding_all decide)⟩

/-- C2: every confidence in the returned prediction list lies in
[40.0, 100.0] inclusive and is an integer number of tenths, i.e. rounded to
one decimal place. -/
theorem predictions_confidence_in_range (probs : List ℚ) :
    ∀ p ∈ predict_image_core probs,
      40 ≤ p.confidence ∧ p.confidence ≤ 100 ∧ ∃ n : ℤ, p.confidence = (n : ℚ) / 10 := by
  intro p hp
  rw [predict_image_core_eq_filter] at hp
  rcases List.mem_map.mp hp with ⟨x, hxmem, rfl⟩
  have hband := (List.mem_filter.mp hxmem).2
  rw [inBand, decide_eq_true_eq] at hband
  have hmin : (2/5 : ℚ) ≤ x.1 := confidence_constants.1 ▸ hband.1
  have hmax : x.1 ≤ (1 : ℚ) := confidence_constants.2 ▸ hband.2
  simp only [mkPrediction]
  exact ⟨pyRound1_ge_forty (by linarith), pyRound1_le_hundred (by linarith),
    pyRound1_tenths _⟩

/-- Witness for C2: on the one-class vector with probability 1/2 the sole
prediction is ("tench", 50.0), and `predictions_confidence_in_range` applies
to it. -/
theorem predictions_confidence_in_range_witness :
    (Prediction.mk "tench" 50) ∈ predict_image_core [1/2]
    ∧ (40 ≤ (Prediction.mk "tench" 50).confidence
       ∧ (Prediction.mk "tench" 50).confidence ≤ 100
       ∧ ∃ n : ℤ, (Prediction.mk "tench" 50).confidence = (n : ℚ) / 10) :=
  ⟨by with_unfolding_all decide,
   predictions_confidence_in_range [1/2] (Prediction.mk "tench" 50)
     (by with_unfolding_all decide)⟩

/-- C3: if the highest-ranked entry of the top-50 list has probability below
0.40, the loop breaks immediately and `predict_image` returns the empty
list. -/
theorem predict_empty_of_top_below (probs : List ℚ) (x : ℚ × ℕ)
    (rest : List (ℚ × ℕ)) (h : topk probs 50 = x :: rest)
    (hx : x.1 < MIN_CONFIDENCE) :
    predict_image_core probs = [] := by
  rw [predict_image_core, h]
  simp only [filterLoop]
  rw [if_neg (fun hc => absurd hc.1 (not_le.mpr hx)), if_pos hx]

/-- Witness for C3: on the one-class vector with probability 3/10 the top
entry is (3/10, 0), its probability is below the threshold, and
`predict_empty_of_top_below` yields the empty prediction list. -/
theorem predict_empty_of_top_below_witness :
    topk [3/10] 50 = [((3:ℚ)/10, 0)]
    ∧ ((3:ℚ)/10, 0).1 < MIN_CONFIDENCE
    ∧ predict_image_core [3/10] = [] :=
  ⟨by with_unfolding_all decide, by with_unfolding_all decide,
   predict_empty_of_top_below [3/10] ((3:ℚ)/10, 0) []
     (by with_unfolding_all decide) (by with_unfolding_all decide)⟩

/-- C10: an entry whose probability exceeds 1.00 is skipped without
terminating the loop (later entries are still processed), and the returned
list never has more than 50 entries. -/
theorem filterLoop_skips_above_max (c : ℚ) (i : ℕ) (rest : List (ℚ × ℕ))
    (h : MAX_CONFIDENCE < c) (probs : List ℚ) :
    filterLoop ((c, i) :: rest) = filterLoop rest
    ∧ (predict_image_core probs).length ≤ 50 := by
  constructor
  · have hmm : MIN_CONFIDENCE ≤ MAX_CONFIDENCE := by
      rw [confidence_constants.1, confidence_constants.2]
      norm_num
    simp only [filterLoop]
    rw [if_neg (fun hc => absurd hc.2 (not_le.mpr h)),
      if_neg (not_lt.mpr (le_trans hmm h.le))]
  · have hlen : ∀ xs : List (ℚ × ℕ), (filterLoop xs).length ≤ xs.length := by
      intro xs
      induction xs with
      | nil => exact Nat.le_refl 0
      | cons x r ih =>
        simp only [filterLoop]
        split_ifs
        · simpa using Nat.succ_le_succ ih
        · exact Nat.zero_le _
        · exact le_trans ih (Nat.le_succ _)
    refine le_trans (hlen _) ?_
    rw [topk]
    simp

/-- Witness for C10: probability 2 exceeds the maximum, the loop skips it and
still emits the later in-band entry (1/2, 3), and the list for the one-class
vector [1/2] has length at most 50. -/
theorem filterLoop_skips_above_max_witness :
    MAX_CONFIDENCE < (2:ℚ)
    ∧ filterLoop [((2:ℚ), 0), ((1:ℚ)/2, 3)] = filterLoop [((1:ℚ)/2, 3)]
    ∧ (predict_image_core [1/2]).length ≤ 50 :=
  ⟨by with_unfolding_all decide,
   (filterLoop_skips_above_max 2 0 [((1:ℚ)/2, 3)]
     (by with_unfolding_all decide) [1/2]).1,
   (filterLoop_skips_above_max 2 0 [((1:ℚ)/2, 3)]
     (by with_unfolding_all decide) [1/2]).2⟩

/-- C5: a POST /predict request with no `file` field answers exactly
success=false / "No file uploaded", and one whose file has an empty filename
answers exactly success=false / "No file selected"; in both cases the answer
is the same whatever the model pipeline computes, so inference is never
invoked. -/
theorem predict_rejects_missing_and_empty
    (rm1 rm2 : List ℕ → Except String (List ℚ)) (req : PredictRequest) :
    (req.files.lookup "file" = none →
      predict rm1 req = ⟨200, PredictBody.failure "No file uploaded"⟩
      ∧ predict rm1 req = predict rm2 req)
    ∧ (∀ f, req.files.lookup "file" = some f → f.filename = "" →
      predict rm1 req = ⟨200, PredictBody.failure "No file selected"⟩
      ∧ predict rm1 req = predict rm2 req) := by
  constructor
  · intro h
    constructor <;> simp [predict, h]
  · intro f hf hname
    constructor <;> simp [predict, hf, hname]

/-- Witness for C5: a fieldless request and an empty-filename request, run
against two distinct model pipelines, both rejected by
`predict_rejects_missing_and_empty` with the exact bodies. -/
theorem predict_rejects_missing_and_empty_witness :
    reqNoFile.files.lookup "file" = none
    ∧ reqEmptyName.files.lookup "file" = some (UploadedFile.mk "" [1])
    ∧ predict rmOk reqNoFile = ⟨200, PredictBody.failure "No file uploaded"⟩
    ∧ predict rmOk reqNoFile = predict rmErr reqNoFile
    ∧ predict rmOk reqEmptyName = ⟨200, PredictBody.failure "No file selected"⟩
    ∧ predict rmOk reqEmptyName = predict rmErr reqEmptyName :=
  ⟨by decide, by decide,
   ((predict_rejects_missing_and_empty rmOk rmErr reqNoFile).1 (by decide)).1,
   ((predict_rejects_missing_and_empty rmOk rmErr reqNoFile).1 (by decide)).2,
   ((predict_rejects_missing_and_empty rmOk rmErr reqEmptyName).2
     (UploadedFile.mk "" [1]) (by decide) rfl).1,
   ((predict_rejects_missing_and_empty rmOk rmErr reqEmptyName).2
     (UploadedFile.mk "" [1]) (by decide) rfl).2⟩

/-- C6: when the uploaded file is present and named but its bytes fail to
decode, POST /predict answers success=false with the surfaced decode error
message, and the body carries no prediction list at all. -/
theorem predict_reports_decode_error
    (rm : List ℕ → Except String (List ℚ)) (req : PredictRequest)
    (f : UploadedFile) (msg : String)
    (hf : req.files.lookup "file" = some f) (hname : f.filename ≠ "")
    (herr : rm f.content = Except.error msg) :
    predict rm req = ⟨200, PredictBody.failure ("Error: " ++ msg)⟩
    ∧ ∀ preds, (predict rm req).body ≠ PredictBody.success preds := by
  have h : predict rm req = ⟨200, PredictBody.failure ("Error: " ++ msg)⟩ := by
    simp [predict, hf, hname, predict_image, herr]
  exact ⟨h, fun preds hc => by rw [h] at hc; exact PredictBody.noConfusion hc⟩

/-- Witness for C6: the request `reqImage` run against the failing pipeline
`rmErr` is answered by `predict_reports_decode_error` with the exact failure
body and no success body. -/
theorem predict_reports_decode_error_witness :
    reqImage.files.lookup "file" = some (UploadedFile.mk "cat.png" [1, 2, 3])
    ∧ (UploadedFile.mk "cat.png" [1, 2, 3]).filename ≠ ""
    ∧ rmErr (UploadedFile.mk "cat.png" [1, 2, 3]).content = Except.error "boom"
    ∧ predict rmErr reqImage = ⟨200, PredictBody.failure ("Error: " ++ "boom")⟩
    ∧ ∀ preds, (predict rmErr reqImage).body ≠ PredictBody.success preds :=
  ⟨by decide, by decide, rfl,
   (predict_reports_decode_error rmErr reqImage
     (UploadedFile.mk "cat.png" [1, 2, 3]) "boom" (by decide) (by decide) rfl).1,
   (predict_reports_decode_error rmErr reqImage
     (UploadedFile.mk "cat.png" [1, 2, 3]) "boom" (by decide) (by decide) rfl).2⟩

/-- C7: POST /predict answers HTTP status 200 on every input, and each error
path — missing field, empty filename, decode or inference failure — carries a
success=false (failure) body rather than an HTTP error status. -/
theorem predict_always_200
    (rm : List ℕ → Except String (List ℚ)) (req : PredictRequest) :
    (predict rm req).status = 200
    ∧ (req.files.lookup "file" = none →
        (predict rm req).body = PredictBody.failure "No file uploaded")
    ∧ (∀ f, req.files.lookup "file" = some f → f.filename = "" →
        (predict rm req).body = PredictBody.failure "No file selected")
    ∧ (∀ f msg, req.files.lookup "file" = some f → f.filename ≠ "" →
        rm f.content = Except.error msg →
        (predict rm req).body = PredictBody.failure ("Error: " ++ msg)) := by
  refine ⟨?_, ?_, ?_, ?_⟩
  · rcases hl : req.files.lookup "file" with _ | f
    · simp [predict, hl]
    · by_cases hn : f.filename = ""
      · simp [predict, hl, hn]
      · rcases hp : predict_image rm f.content with e | preds <;>
          simp [predict, hl, hn, hp]
  · intro h
    simp [predict, h]
  · intro f hf hn
    simp [predict, hf, hn]
  · intro f msg hf hn herr
    simp [predict, hf, hn, predict_image, herr]

/-- Witness for C7: `predict_always_200` applied on the three error-path
requests against the failing pipeline: every status is 200 and every body is
the expected failure. -/
theorem predict_always_200_witness :
    (predict rmErr reqNoFile).status = 200
    ∧ (predict rmErr reqNoFile).body = PredictBody.failure "No file uploaded"
    ∧ (predict rmErr reqEmptyName).body = PredictBody.failure "No file selected"
    ∧ (predict rmErr reqImage).body = PredictBody.failure ("Error: " ++ "boom") :=
  ⟨(predict_always_200 rmErr reqNoFile).1,
   (predict_always_200 rmErr reqNoFile).2.1 (by decide),
   (predict_always_200 rmErr reqEmptyName).2.2.1
     (UploadedFile.mk "" [1]) (by decide) rfl,
   (predict_always_200 rmErr reqImage).2.2.2
     (UploadedFile.mk "cat.png" [1, 2, 3]) "boom" (by decide) (by decide) rfl⟩

/-- C8: inference is deterministic: running `predict_image` twice on the same
bytes through the state-passing semantics yields identical outputs, and the
shared model state is never mutated. -/
theorem predict_image_deterministic (s : ServerState) (b : List ℕ) :
    (predict_image_st s b).1 = (predict_image_st (predict_image_st s b).2 b).1
    ∧ (predict_image_st s b).2 = s
    ∧ (predict_image_st (predict_image_st s b).2 b).2 = s :=
  ⟨rfl, rfl, rfl⟩

/-- C9: every error produced by a decode or inference failure inside
`predict_image` is the string "Error: " followed by the underlying exception
message, and the `error` field of the resulting POST /predict failure body is
that same string. -/
theorem predict_image_error_shape
    (rm : List ℕ → Except String (List ℚ)) (b : List ℕ) (msg : String)
    (h : rm b = Except.error msg) :
    predict_image rm b = Except.error ("Error: " ++ msg)
    ∧ ∀ (req : PredictRequest) (f : UploadedFile),
        req.files.lookup "file" = some f → f.filename ≠ "" → f.content = b →
        (predict rm req).body = PredictBody.failure ("Error: " ++ msg) := by
  constructor
  · simp [predict_image, h]
  · intro req f hf hn hb
    simp [predict, hf, hn, predict_image, hb, h]

/-- Witness for C9: the failing pipeline `rmErr` on the bytes of `reqImage`
produces exactly the wrapped message "Error: boom", inside `predict_image`
and in the response body. -/
theorem predict_image_error_shape_witness :
    rmErr [1, 2, 3] = Except.error "boom"
    ∧ predict_image rmErr [1, 2, 3] = Except.error ("Error: " ++ "boom")
    ∧ (predict rmErr reqImage).body = PredictBody.failure ("Error: " ++ "boom") :=
  ⟨rfl,
   (predict_image_error_shape rmErr [1, 2, 3] "boom" rfl).1,
   (predict_image_error_shape rmErr [1, 2, 3] "boom" rfl).2 reqImage
     (UploadedFile.mk "cat.png" [1, 2, 3]) (by decide) (by decide) rfl⟩
